import Mathlib

/-!
Shallow embedding of the maze-survival game core (maze generator, grid
collision queries, lane-confined enemy AI, spawn allocator, player
collision resolver) from game.js and its mode-select variant, together
with theorems settling the frozen specification claims.

World coordinates and all fractional game quantities are modelled as
rationals; grid cells hold 0 (OPEN) or 1 (WALL) exactly as in the
source arrays.
-/

namespace Zyrath

/-- MAZE_SIZE constant from game.js (same value in both variants). -/
def MAZE_SIZE : Nat := 30

/-- JUMPER_COUNT constant from game.js. -/
def JUMPER_COUNT : Nat := 15

/-- JUMPER_SPEED constant from game.js. -/
def JUMPER_SPEED : ℚ := 0.08

/-- KNIFE_RANGE constant from game.js. -/
def KNIFE_RANGE : ℚ := 2.8

/-- Occupancy grid: a row-major list of rows, entries are 0 (open) or 1
(wall), mirroring the two-dimensional maze array of the source. The
first index is the x grid coordinate, the second the z (or y)
coordinate, matching the maze[x][y] indexing of the source. -/
def Grid : Type := List (List Nat)

/-- Cell lookup maze[x][y]. Only ever used at in-range indices by the
embedded code (the source checks bounds before indexing); out-of-range
access defaults to 1 (wall) so the total function is fail-closed. -/
def gridGet (m : Grid) (x y : Nat) : Nat :=
  (((m : List (List Nat)).getD x []).getD y 1)

/-- Cell update maze[x][y] = v. -/
def gridSet (m : Grid) (x y v : Nat) : Grid :=
  (m : List (List Nat)).set x (((m : List (List Nat)).getD x []).set y v)

/-- Initial all-wall grid of generateMaze (maze[i][j] = 1 for all i,j). -/
def mazeInit : Grid :=
  List.replicate MAZE_SIZE (List.replicate MAZE_SIZE 1)

/-- JavaScript Math.floor on a rational, as an integer. -/
def jsFloor (q : ℚ) : ℤ := q.floor

/-- The two patrol axes of an agent. -/
inductive Axis
  | x
  | z
deriving DecidableEq, Repr

/-- Agent state machine states from the source: hopping, chasing, queued. -/
inductive JState
  | hopping
  | chasing
  | queued
deriving DecidableEq, Repr

/-- Lane record stored on each jumper at spawn (laneInfo in the source). -/
structure Lane where
  xMin : ℚ
  xMax : ℚ
  zMin : ℚ
  zMax : ℚ
  axis : Axis
  fixedCoord : ℚ
deriving DecidableEq, Repr

/-- Jumper (enemy agent). Fields are the movement-relevant subset of the
source object: x, z and y position components, direction vector (x and z
components), patrol data, state, the Survival-mode globalChase flag and
the laneInfo record. The mesh, health, cooldown and cosmetic jump-phase
fields do not feed back into any horizontal movement or state decision
and are omitted; the y coordinate is carried only for the 3-D combat
distance. -/
structure Jumper where
  x : ℚ
  y : ℚ
  z : ℚ
  dirX : ℚ
  dirZ : ℚ
  patrolAxis : Axis
  patrolMin : ℚ
  patrolMax : ℚ
  patrolDirection : ℚ
  state : JState
  globalChase : Bool
  lane : Lane
deriving DecidableEq, Repr

/-- Comparison length() > c for a horizontal vector, written on squares
so that it stays inside ℚ: for c ≥ 0 it is equivalent to
sqrt (vx² + vz²) > c, which is how the source phrases the test. -/
def lenGt (vx vz c : ℚ) : Bool :=
  vx * vx + vz * vz > c * c

/-- Squared Euclidean distance between two 3-D points; the source
compares distanceTo (a square root) against a nonnegative radius r,
which is equivalent to comparing this value against r². -/
def distSq (x1 y1 z1 x2 y2 z2 : ℚ) : ℚ :=
  (x1 - x2) * (x1 - x2) + (y1 - y2) * (y1 - y2) + (z1 - z2) * (z1 - z2)

/-- Comparison distanceTo(p, q) < r on squares (r ≥ 0 in all uses). -/
def distLt (x1 y1 z1 x2 y2 z2 r : ℚ) : Bool :=
  distSq x1 y1 z1 x2 y2 z2 < r * r

/-! ### Grid collision queries (game.js isWallAt / isWallAtZombie) -/

/-- Thick-body wall query isWallAt(position) from game.js: convert the
world position to a grid cell with floor(p + MAZE_SIZE/2); outside
[0, MAZE_SIZE) on either axis is solid; a wall in the occupied cell is
solid; otherwise sample 8 points at ±0.25 around the position (4
diagonal corners, then 4 axis-aligned) and report a wall if any sample
is out of bounds or lands in a wall cell. -/
def isWallAt (m : Grid) (px pz : ℚ) : Bool :=
  let gridX := jsFloor (px + (MAZE_SIZE : ℚ) / 2)
  let gridZ := jsFloor (pz + (MAZE_SIZE : ℚ) / 2)
  if gridX < 0 ∨ gridX ≥ (MAZE_SIZE : ℤ) ∨ gridZ < 0 ∨ gridZ ≥ (MAZE_SIZE : ℤ) then
    true
  else if gridGet m gridX.toNat gridZ.toNat = 1 then
    true
  else
    let pgx := px + (MAZE_SIZE : ℚ) / 2
    let pgz := pz + (MAZE_SIZE : ℚ) / 2
    let r : ℚ := 0.25
    let checkPoints : List (ℚ × ℚ) :=
      [(pgx - r, pgz - r), (pgx + r, pgz - r), (pgx - r, pgz + r), (pgx + r, pgz + r),
       (pgx - r, pgz), (pgx + r, pgz), (pgx, pgz - r), (pgx, pgz + r)]
    checkPoints.any fun p =>
      let cx := jsFloor p.1
      let cz := jsFloor p.2
      if cx < 0 ∨ cx ≥ (MAZE_SIZE : ℤ) ∨ cz < 0 ∨ cz ≥ (MAZE_SIZE : ℤ) then
        true
      else
        gridGet m cx.toNat cz.toNat = 1

/-- Thin-body wall query isWallAtZombie(position) from game.js: same
center-cell and boundary test, then the 4 corners of a ±0.001 box; an
out-of-bounds corner is skipped (only in-bounds corners can report a
wall), exactly as in the source loop. -/
def isWallAtZombie (m : Grid) (px pz : ℚ) : Bool :=
  let gridX := jsFloor (px + (MAZE_SIZE : ℚ) / 2)
  let gridZ := jsFloor (pz + (MAZE_SIZE : ℚ) / 2)
  if gridX < 0 ∨ gridX ≥ (MAZE_SIZE : ℤ) ∨ gridZ < 0 ∨ gridZ ≥ (MAZE_SIZE : ℤ) then
    true
  else if gridGet m gridX.toNat gridZ.toNat = 1 then
    true
  else
    let cellX := px + (MAZE_SIZE : ℚ) / 2
    let cellZ := pz + (MAZE_SIZE : ℚ) / 2
    let r : ℚ := 0.001
    let corners : List (ℚ × ℚ) :=
      [(cellX - r, cellZ - r), (cellX + r, cellZ - r), (cellX - r, cellZ + r), (cellX + r, cellZ + r)]
    corners.any fun p =>
      let cx := jsFloor p.1
      let cz := jsFloor p.2
      if 0 ≤ cx ∧ cx < (MAZE_SIZE : ℤ) ∧ 0 ≤ cz ∧ cz < (MAZE_SIZE : ℤ) then
        gridGet m cx.toNat cz.toNat = 1
      else
        false

/-! ### Maze generator (game.js generateMaze)

The generator consumes the Math.random() stream; it is embedded as a
function of an explicit stream of rationals in [0, 1), each call
consuming the next index. -/

/-- Visited-set of the recursive backtracker, modelled as a Boolean grid
over the same coordinates as the string-keyed Set of the source. -/
def visGet (v : List (List Bool)) (x y : Nat) : Bool :=
  (v.getD x []).getD y false

/-- Mark a cell visited. -/
def visSet (v : List (List Bool)) (x y : Nat) : List (List Bool) :=
  v.set x ((v.getD x []).set y true)

/-- Initially no cell is visited. -/
def visInit : List (List Bool) :=
  List.replicate MAZE_SIZE (List.replicate MAZE_SIZE false)

/-- getNeighbors(x, y) from generateMaze: the unvisited cells at offsets
(0,2), (2,0), (0,-2), (-2,0) whose coordinates lie in [1, MAZE_SIZE-1),
each paired with the connecting wall cell at half the offset; result
entries are (nx, ny, wallX, wallY). -/
def getNeighbors (vis : List (List Bool)) (x y : Nat) : List (Nat × Nat × Nat × Nat) :=
  ([((0 : ℤ), (2 : ℤ)), (2, 0), (0, -2), (-2, 0)]).filterMap fun d =>
    let nx := (x : ℤ) + d.1
    let ny := (y : ℤ) + d.2
    if 1 ≤ nx ∧ nx < (MAZE_SIZE : ℤ) - 1 ∧ 1 ≤ ny ∧ ny < (MAZE_SIZE : ℤ) - 1 then
      if visGet vis nx.toNat ny.toNat then
        none
      else
        some (nx.toNat, ny.toNat, ((x : ℤ) + d.1 / 2).toNat, ((y : ℤ) + d.2 / 2).toNat)
    else
      none

/-- State of the backtracking carve loop: the grid, the visited set, the
cell stack, the current cell and the next unread index of the random
stream. -/
structure CarveSt where
  maze : Grid
  visited : List (List Bool)
  stack : List (Nat × Nat)
  cur : Nat × Nat
  rIdx : Nat

/-- One-past bound on carve loop iterations: each iteration either
visits a new cell (at most MAZE_SIZE² times) or pops the stack (at most
as often as cells were pushed), so 1000 ≫ 2·14² + 1 suffices for the
30×30 grid and the loop always reaches its natural exit. -/
def CARVE_FUEL : Nat := 1000

/-- The while(true) backtracking loop of generateMaze: while the current
cell has unvisited distance-2 neighbors, pick one with the next random
value, open the connecting wall cell and the neighbor, push the current
cell and descend; otherwise pop the stack; stop when the stack is empty
and no neighbor remains. -/
def carveLoop (stream : Nat → ℚ) : Nat → CarveSt → CarveSt
  | 0, st => st
  | fuel + 1, st =>
    let nbrs := getNeighbors st.visited st.cur.1 st.cur.2
    if nbrs.length > 0 then
      let r := stream st.rIdx
      let idx := (jsFloor (r * (nbrs.length : ℚ))).toNat
      let n := nbrs.getD idx (0, 0, 0, 0)
      let m1 := gridSet st.maze n.2.2.1 n.2.2.2 0
      let m2 := gridSet m1 n.1 n.2.1 0
      carveLoop stream fuel
        { maze := m2
          visited := visSet st.visited n.1 n.2.1
          stack := st.cur :: st.stack
          cur := (n.1, n.2.1)
          rIdx := st.rIdx + 1 }
    else
      match st.stack with
      | c :: rest => carveLoop stream fuel { st with cur := c, stack := rest }
      | [] => st

/-- The carve phase of generateMaze: all-wall grid, entrance (1,1)
opened and visited, then the backtracking loop. -/
def carveMaze (stream : Nat → ℚ) : CarveSt :=
  carveLoop stream CARVE_FUEL
    { maze := gridSet mazeInit 1 1 0
      visited := visSet visInit 1 1
      stack := []
      cur := (1, 1)
      rIdx := 0 }

/-- One attempt of the dead-end noise pass: pick x and y in
[2, MAZE_SIZE-4+2) from the stream; if the cell is still a wall, open it
and, on coin flips strictly above 0.5, also open (x+1, y) and (x, y+1)
subject to the interior bound; both coins are always drawn when the cell
was a wall (the source calls Math.random() before the short-circuited
bound test). The second component threads the stream index. -/
def noiseAttempt (stream : Nat → ℚ) (st : Grid × Nat) : Grid × Nat :=
  let x := (jsFloor (stream st.2 * ((MAZE_SIZE : ℚ) - 4))).toNat + 2
  let y := (jsFloor (stream (st.2 + 1) * ((MAZE_SIZE : ℚ) - 4))).toNat + 2
  if gridGet st.1 x y = 1 then
    let m1 := gridSet st.1 x y 0
    let m2 := if stream (st.2 + 2) > 0.5 ∧ x + 1 < MAZE_SIZE - 1 then gridSet m1 (x + 1) y 0 else m1
    let m3 := if stream (st.2 + 3) > 0.5 ∧ y + 1 < MAZE_SIZE - 1 then gridSet m2 x (y + 1) 0 else m2
    (m3, st.2 + 4)
  else
    (st.1, st.2 + 2)

/-- The 15-attempt noise pass of generateMaze. -/
def noisePass (stream : Nat → ℚ) (m : Grid) (k : Nat) : Grid × Nat :=
  (List.range 15).foldl (fun st _ => noiseAttempt stream st) (m, k)

/-- Force-clear of the exit corner: cells (N-2,N-2), (N-2,N-3),
(N-3,N-2), (N-3,N-3) are opened unconditionally. -/
def clearExit (m : Grid) : Grid :=
  gridSet (gridSet (gridSet (gridSet m
    (MAZE_SIZE - 2) (MAZE_SIZE - 2) 0)
    (MAZE_SIZE - 2) (MAZE_SIZE - 3) 0)
    (MAZE_SIZE - 3) (MAZE_SIZE - 2) 0)
    (MAZE_SIZE - 3) (MAZE_SIZE - 3) 0

/-- Force-clear of the 3×3 pickup area around the pistol world position
(-6, 3) converted to grid indices, with in-bounds guard per cell. -/
def clearPickup (m : Grid) : Grid :=
  let px := jsFloor ((-6 : ℚ) + (MAZE_SIZE : ℚ) / 2)
  let pz := jsFloor ((3 : ℚ) + (MAZE_SIZE : ℚ) / 2)
  ([-1, 0, 1] : List ℤ).foldl (fun m1 dx =>
    ([-1, 0, 1] : List ℤ).foldl (fun m2 dz =>
      let x := px + dx
      let z := pz + dz
      if 0 ≤ x ∧ x < (MAZE_SIZE : ℤ) ∧ 0 ≤ z ∧ z < (MAZE_SIZE : ℤ) then
        gridSet m2 x.toNat z.toNat 0
      else
        m2) m1) m

/-- Full maze-generation pipeline of generateMaze (grid part): carve,
noise pass, exit-corner clear, pickup-area clear. -/
def generateMaze (stream : Nat → ℚ) : Grid :=
  let st := carveMaze stream
  clearPickup (clearExit (noisePass stream st.maze st.rIdx).1)

/-! ### Flood fill over the finished grid (spec property: connectivity) -/

/-- Breadth-first flood fill: expand the frontier through open in-bounds
4-neighbors until it is exhausted (the fuel strictly dominates the cell
count, so the frontier always empties first). -/
def floodLoop (m : Grid) : Nat → List (List Bool) → List (Nat × Nat) → List (List Bool)
  | 0, vis, _ => vis
  | _ + 1, vis, [] => vis
  | fuel + 1, vis, c :: rest =>
    let r := ([((0 : ℤ), (1 : ℤ)), (0, -1), (1, 0), (-1, 0)]).foldl
      (fun (acc : List (List Bool) × List (Nat × Nat)) d =>
        let nx := (c.1 : ℤ) + d.1
        let nz := (c.2 : ℤ) + d.2
        if 0 ≤ nx ∧ nx < (MAZE_SIZE : ℤ) ∧ 0 ≤ nz ∧ nz < (MAZE_SIZE : ℤ) then
          if gridGet m nx.toNat nz.toNat = 0 ∧ ¬ visGet acc.1 nx.toNat nz.toNat then
            (visSet acc.1 nx.toNat nz.toNat, acc.2 ++ [(nx.toNat, nz.toNat)])
          else
            acc
        else
          acc) (vis, rest)
    floodLoop m fuel r.1 r.2

/-- Flood fill of the whole grid from the entrance cell (1,1). -/
def floodFill (m : Grid) : List (List Bool) :=
  floodLoop m 2000 (visSet visInit 1 1) [(1, 1)]

/-- Check of one row: every open cell of the row is marked reached. -/
def rowAllReached : List Nat → List Bool → Bool
  | [], _ => true
  | _ :: _, [] => false
  | c :: cs, v :: vs => (decide (c ≠ 0) || v) && rowAllReached cs vs

/-- Check of the whole grid against a visited grid. -/
def gridAllReached : Grid → List (List Bool) → Bool
  | [], _ => true
  | _ :: _, [] => false
  | row :: rows, vrow :: vrows => rowAllReached row vrow && gridAllReached rows vrows

/-- Connectivity property of the spec: a flood fill from the entrance
cell (1,1) reaches every open cell of the grid. -/
def mazeConnected (m : Grid) : Bool :=
  gridAllReached m (floodFill m)

/-! ### Lane-confined agent updates (updateJumpers)

The per-frame updateJumpers body runs, for each agent independently, a
state-transition phase followed by a movement phase. The parabolic
vertical hop animation only writes the y coordinate and is read by no
horizontal decision, so the embedded steps leave y untouched. -/

/-- Lane-aggro predicate of updateJumpers (identical text in both
variants): tolerance 1.2 against the lane fixed coordinate on the
confined axis, and the lane span widened by 1.0 on the free axis. -/
def playerInLaneHunt (j : Jumper) (px pz : ℚ) : Bool :=
  let lane := j.lane
  let tolerance : ℚ := 1.2
  match j.patrolAxis with
  | Axis.x => decide (|pz - lane.fixedCoord| < tolerance ∧
      px ≥ lane.xMin - 1.0 ∧ px ≤ lane.xMax + 1.0)
  | Axis.z => decide (|px - lane.fixedCoord| < tolerance ∧
      pz ≥ lane.zMin - 1.0 ∧ pz ≤ lane.zMax + 1.0)

/-- Hunt-mode state transition of updateJumpers (game.js): aggro when
the player is in lane and the agent is not already chasing; revert to
hopping when the player is out of lane and the agent is chasing. -/
def huntStateUpdate (j : Jumper) (px pz : ℚ) : Jumper :=
  let shouldAttack := playerInLaneHunt j px pz
  if shouldAttack ∧ j.state ≠ JState.chasing then
    { j with state := JState.chasing }
  else if ¬ shouldAttack = true ∧ j.state = JState.chasing then
    { j with state := JState.hopping }
  else
    j

/-- Patrol-direction flip shared by the hopping and queued branches:
turn around within 0.3 of either patrol bound. -/
def patrolFlip (j : Jumper) (currentPos : ℚ) : ℚ :=
  if currentPos ≥ j.patrolMax - 0.3 then -1
  else if currentPos ≤ j.patrolMin + 0.3 then 1
  else j.patrolDirection

/-- Movement phase of updateJumpers (game.js, Hunt build). Produces the
agent after direction selection, speed selection, the position step, the
forced lane alignment and the unconditional clamp to
[patrolMin, patrolMax] on the patrol axis. The source normalizes the
selected target direction before copying it into the agent; the target
is always one of the four axis unit vectors, on which normalization is
the identity, so the copy is embedded directly. -/
def huntMoveStep (j : Jumper) (px pz : ℚ) : Jumper :=
  let currentPos := match j.patrolAxis with | Axis.x => j.x | Axis.z => j.z
  let pd :=
    match j.state with
    | JState.hopping => patrolFlip j currentPos
    | JState.queued => patrolFlip j currentPos
    | JState.chasing => j.patrolDirection
  let target : ℚ × ℚ :=
    match j.state, j.patrolAxis with
    | JState.hopping, Axis.x => (pd, 0)
    | JState.hopping, Axis.z => (0, pd)
    | JState.queued, Axis.x => (pd, 0)
    | JState.queued, Axis.z => (0, pd)
    | JState.chasing, Axis.x => (if px > j.x then 1 else -1, 0)
    | JState.chasing, Axis.z => (0, if pz > j.z then 1 else -1)
  let dir := if lenGt target.1 target.2 0.1 then target else (j.dirX, j.dirZ)
  let moveSpeed := if j.state = JState.queued then JUMPER_SPEED * 0.7 else JUMPER_SPEED
  let nx := if lenGt dir.1 dir.2 0.1 then j.x + dir.1 * moveSpeed else j.x
  let nz := if lenGt dir.1 dir.2 0.1 then j.z + dir.2 * moveSpeed else j.z
  let alignedX := match j.lane.axis with | Axis.x => nx | Axis.z => j.lane.fixedCoord
  let alignedZ := match j.lane.axis with | Axis.x => j.lane.fixedCoord | Axis.z => nz
  match j.patrolAxis with
  | Axis.x =>
    { j with x := max j.patrolMin (min j.patrolMax alignedX), z := alignedZ,
             dirX := dir.1, dirZ := dir.2, patrolDirection := pd }
  | Axis.z =>
    { j with x := alignedX, z := max j.patrolMin (min j.patrolMax alignedZ),
             dirX := dir.1, dirZ := dir.2, patrolDirection := pd }

/-- Whole per-agent frame update of the Hunt build: state transition
phase, then movement phase. -/
def huntFrameStep (j : Jumper) (px pz : ℚ) : Jumper :=
  huntMoveStep (huntStateUpdate j px pz) px pz

/-- Game mode of the mode-select build. -/
inductive GameMode
  | hunt
  | survival
deriving DecidableEq, Repr

/-- State transition of updateJumpers in the mode-select build: in
Survival mode an in-lane sighting sets chasing and the sticky
globalChase flag and there is no reverting branch; in Hunt mode the
rule is the two-way one of the Hunt build. -/
def svStateUpdate (mode : GameMode) (j : Jumper) (px pz : ℚ) : Jumper :=
  let playerInLane := playerInLaneHunt j px pz
  if mode = GameMode.survival then
    if playerInLane ∧ j.state ≠ JState.chasing then
      { j with state := JState.chasing, globalChase := true }
    else
      j
  else
    if playerInLane ∧ j.state ≠ JState.chasing then
      { j with state := JState.chasing }
    else if ¬ playerInLane = true ∧ j.state = JState.chasing then
      { j with state := JState.hopping }
    else
      j

/-- Wall-cancel validation of the Survival pursuit: the grid cell
containing the candidate position, fail-closed at the boundary; a wall
cancels the move and keeps the old position. -/
def svWallCancel (m : Grid) (oldPos newPos : ℚ × ℚ) : ℚ × ℚ :=
  let mazeX := jsFloor (newPos.1 + (MAZE_SIZE : ℚ) / 2)
  let mazeZ := jsFloor (newPos.2 + (MAZE_SIZE : ℚ) / 2)
  if mazeX < 0 ∨ mazeX ≥ (MAZE_SIZE : ℤ) ∨ mazeZ < 0 ∨ mazeZ ≥ (MAZE_SIZE : ℤ) ∨
      gridGet m mazeX.toNat mazeZ.toNat = 1 then
    oldPos
  else
    newPos

/-- Target-direction/axis selection of the Survival global pursuit from
the chasing branch of updateJumpers (mode-select build): keep the
current patrol axis while the player displacement along it exceeds
0.5; otherwise, at an intersection, take the axis of larger
displacement and re-label. -/
def svPursuitTarget (j : Jumper) (px pz : ℚ) : (ℚ × ℚ) × Axis :=
  let dx := px - j.x
  let dz := pz - j.z
  match j.patrolAxis with
  | Axis.x =>
    if |dx| > 0.5 then ((if dx > 0 then 1 else -1, 0), Axis.x)
    else if |dx| > |dz| then ((if dx > 0 then 1 else -1, 0), Axis.x)
    else ((0, if dz > 0 then 1 else -1), Axis.z)
  | Axis.z =>
    if |dz| > 0.5 then ((0, if dz > 0 then 1 else -1), Axis.z)
    else if |dx| > |dz| then ((if dx > 0 then 1 else -1, 0), Axis.x)
    else ((0, if dz > 0 then 1 else -1), Axis.z)

/-- Movement phase of updateJumpers in the mode-select build. The
chasing branch with globalChase set in Survival mode performs the
corridor pursuit target selection and the wall-cancel validation; all
other states, and Hunt mode, use the lane alignment and the
patrol-bound clamp instead. -/
def svMoveStep (mode : GameMode) (m : Grid) (j : Jumper) (px pz : ℚ) : Jumper :=
  let currentPos := match j.patrolAxis with | Axis.x => j.x | Axis.z => j.z
  let pd :=
    match j.state with
    | JState.hopping => patrolFlip j currentPos
    | JState.queued => patrolFlip j currentPos
    | JState.chasing => j.patrolDirection
  let globalPursuit := j.globalChase ∧ mode = GameMode.survival
  let targetAx : (ℚ × ℚ) × Axis :=
    match j.state, j.patrolAxis with
    | JState.hopping, Axis.x => ((pd, 0), Axis.x)
    | JState.hopping, Axis.z => ((0, pd), Axis.z)
    | JState.queued, Axis.x => ((pd, 0), Axis.x)
    | JState.queued, Axis.z => ((0, pd), Axis.z)
    | JState.chasing, Axis.x =>
      if globalPursuit then svPursuitTarget j px pz
      else ((if px > j.x then 1 else -1, 0), Axis.x)
    | JState.chasing, Axis.z =>
      if globalPursuit then svPursuitTarget j px pz
      else ((0, if pz > j.z then 1 else -1), Axis.z)
  let target := targetAx.1
  let newAxis := targetAx.2
  let dir := if lenGt target.1 target.2 0.1 then target else (j.dirX, j.dirZ)
  let moveSpeed :=
    if j.state = JState.queued then JUMPER_SPEED * 0.7
    else if globalPursuit then JUMPER_SPEED * 0.5
    else JUMPER_SPEED
  let nx := if lenGt dir.1 dir.2 0.1 then j.x + dir.1 * moveSpeed else j.x
  let nz := if lenGt dir.1 dir.2 0.1 then j.z + dir.2 * moveSpeed else j.z
  let pos2 : ℚ × ℚ :=
    if globalPursuit then
      svWallCancel m (j.x, j.z) (nx, nz)
    else
      let alignedX := match j.lane.axis with | Axis.x => nx | Axis.z => j.lane.fixedCoord
      let alignedZ := match j.lane.axis with | Axis.x => j.lane.fixedCoord | Axis.z => nz
      match j.patrolAxis with
      | Axis.x => (max j.patrolMin (min j.patrolMax alignedX), alignedZ)
      | Axis.z => (alignedX, max j.patrolMin (min j.patrolMax alignedZ))
  { j with x := pos2.1, z := pos2.2, dirX := dir.1, dirZ := dir.2,
           patrolDirection := pd, patrolAxis := newAxis }

/-- Whole per-agent frame update of the mode-select build. -/
def svFrameStep (mode : GameMode) (m : Grid) (j : Jumper) (px pz : ℚ) : Jumper :=
  svMoveStep mode m (svStateUpdate mode j px pz) px pz

/-- Pursuit target selection as the amended specification words it:
current patrol axis first while the displacement to the player along it
exceeds 0.5, otherwise the axis of larger displacement (ties to z),
re-labeled. Written from the amended claim, for comparison with
svPursuitTarget. -/
def specPursuitTarget (j : Jumper) (px pz : ℚ) : (ℚ × ℚ) × Axis :=
  let dx := px - j.x
  let dz := pz - j.z
  if j.patrolAxis = Axis.x ∧ |dx| > 0.5 then ((if dx > 0 then 1 else -1, 0), Axis.x)
  else if j.patrolAxis = Axis.z ∧ |dz| > 0.5 then ((0, if dz > 0 then 1 else -1), Axis.z)
  else if |dx| > |dz| then ((if dx > 0 then 1 else -1, 0), Axis.x)
  else ((0, if dz > 0 then 1 else -1), Axis.z)

/-- Survival pursuit step as the amended specification words it: pick
the pursuit direction and axis with specPursuitTarget, step at half
speed, validate the cell containing the candidate position against the
grid fail-closed at the boundary, and cancel the move (position
unchanged) when it would land in a wall. Stated for comparison with
svMoveStep on chasing agents with globalChase set. -/
def svChaseSpecStep (m : Grid) (j : Jumper) (px pz : ℚ) : Jumper :=
  let ta := specPursuitTarget j px pz
  let nx := j.x + ta.1.1 * (JUMPER_SPEED * 0.5)
  let nz := j.z + ta.1.2 * (JUMPER_SPEED * 0.5)
  let pos2 := svWallCancel m (j.x, j.z) (nx, nz)
  { j with x := pos2.1, z := pos2.2, dirX := ta.1.1, dirZ := ta.1.2, patrolAxis := ta.2 }

/-- Iterated frame updates of the mode-select build along a list of
per-frame player positions. -/
def svRun (mode : GameMode) (m : Grid) (j : Jumper) (path : List (ℚ × ℚ)) : Jumper :=
  path.foldl (fun a p => svFrameStep mode m a p.1 p.2) j

/-! ### Combat legality (shoot / updateBullets) -/

/-- Same-lane combat predicate shared by the knife branch of shoot and
the bullet collision scan of updateBullets: attacker coordinate within
the combat tolerance 0.8 of the lane fixed coordinate on the confined
axis, and within the lane span widened by 0.5 on the free axis. -/
def inSameLaneCombat (j : Jumper) (qx qz : ℚ) : Bool :=
  let lane := j.lane
  let tolerance : ℚ := 0.8
  match j.patrolAxis with
  | Axis.x => decide (|qz - lane.fixedCoord| < tolerance ∧
      qx ≥ lane.xMin - 0.5 ∧ qx ≤ lane.xMax + 0.5)
  | Axis.z => decide (|qx - lane.fixedCoord| < tolerance ∧
      qz ≥ lane.zMin - 0.5 ∧ qz ≤ lane.zMax + 0.5)

/-- Per-target knife legality from shoot: same combat lane and player
within KNIFE_RANGE of the jumper (3-D distance), no direction check. -/
def knifeHitCheck (j : Jumper) (qx qy qz : ℚ) : Bool :=
  inSameLaneCombat j qx qz && distLt qx qy qz j.x j.y j.z KNIFE_RANGE

/-- Per-target bullet legality from updateBullets: same combat lane and
bullet within the 0.7 hitbox of the jumper (3-D distance). -/
def bulletHitCheck (j : Jumper) (qx qy qz : ℚ) : Bool :=
  inSameLaneCombat j qx qz && distLt qx qy qz j.x j.y j.z 0.7

/-! ### Spawn allocator (createJumpers) -/

/-- Corridor orientations. -/
inductive Orientation
  | horizontal
  | vertical
deriving DecidableEq, Repr

/-- Corridor record of the extractor: a horizontal corridor carries its
row z and x span, a vertical one its column x and z span; both carry
their length. The unused span fields of the other orientation are dead
data, as the missing fields of the source object. -/
structure Corridor where
  ctype : Orientation
  x : ℚ
  z : ℚ
  startX : ℚ
  endX : ℚ
  startZ : ℚ
  endZ : ℚ
  length : ℚ
deriving DecidableEq, Repr

/-- Fixed coordinate used by the spacing test: the row of a horizontal
corridor, the column of a vertical one. -/
def fixedOf (c : Corridor) : ℚ :=
  match c.ctype with
  | Orientation.horizontal => c.z
  | Orientation.vertical => c.x

/-- Spacing rejection test of createJumpers: some already selected
corridor has the same orientation and fixed-coordinate distance below
minDist. -/
def tooClose (c : Corridor) (sel : List Corridor) (minDist : ℚ) : Bool :=
  sel.any fun s => decide (c.ctype = s.ctype ∧ |fixedOf c - fixedOf s| < minDist)

/-- minDistanceBetweenJumpers constant of createJumpers. -/
def minDistanceBetweenJumpers : ℚ := 4.0

/-- One step of the first selection pass: stop collecting at
JUMPER_COUNT, accept corridors of length ≥ 5 that pass the spacing test
at minDistanceBetweenJumpers. The source exits the loop once the count
is reached; skipping every later corridor is the same final set. -/
def pass1Step (sel : List Corridor) (c : Corridor) : List Corridor :=
  if sel.length ≥ JUMPER_COUNT then sel
  else if c.length ≥ 5 ∧ tooClose c sel minDistanceBetweenJumpers = false then sel ++ [c]
  else sel

/-- First selection pass over the corridor list. -/
def selectPass1 (cs : List Corridor) : List Corridor :=
  cs.foldl pass1Step []

/-- One step of the second pass: stop at JUMPER_COUNT, skip corridors
already selected, accept any other corridor passing the spacing test at
the relaxed distance 2.0. -/
def pass2Step (sel : List Corridor) (c : Corridor) : List Corridor :=
  if sel.length ≥ JUMPER_COUNT then sel
  else if c ∈ sel then sel
  else if tooClose c sel 2.0 = false then sel ++ [c]
  else sel

/-- Both selection passes of createJumpers (on the empty corridor list
nothing is selected, as in the source guard). -/
def selectCorridors (cs : List Corridor) : List Corridor :=
  if cs.length > 0 then cs.foldl pass2Step (selectPass1 cs) else []

/-- Jumper construction of createJumpers for a selected corridor:
world-space conversion by subtracting MAZE_SIZE/2, spawn at the
corridor midpoint at base height 0.8, patrol bounds inset 1.0 from the
corridor ends, lane record inset 0.5, initial direction along the
patrol axis, initial state hopping. -/
def mkJumper (c : Corridor) : Jumper :=
  match c.ctype with
  | Orientation.horizontal =>
    let worldZ := c.z - (MAZE_SIZE : ℚ) / 2
    let worldStartX := c.startX - (MAZE_SIZE : ℚ) / 2
    let worldEndX := c.endX - (MAZE_SIZE : ℚ) / 2
    { x := (worldStartX + worldEndX) / 2, y := 0.8, z := worldZ,
      dirX := 1, dirZ := 0,
      patrolAxis := Axis.x,
      patrolMin := worldStartX + 1.0, patrolMax := worldEndX - 1.0,
      patrolDirection := 1,
      state := JState.hopping, globalChase := false,
      lane := { xMin := worldStartX + 0.5, xMax := worldEndX - 0.5,
                zMin := worldZ - 0.5, zMax := worldZ + 0.5,
                axis := Axis.x, fixedCoord := worldZ } }
  | Orientation.vertical =>
    let worldX := c.x - (MAZE_SIZE : ℚ) / 2
    let worldStartZ := c.startZ - (MAZE_SIZE : ℚ) / 2
    let worldEndZ := c.endZ - (MAZE_SIZE : ℚ) / 2
    { x := worldX, y := 0.8, z := (worldStartZ + worldEndZ) / 2,
      dirX := 0, dirZ := 1,
      patrolAxis := Axis.z,
      patrolMin := worldStartZ + 1.0, patrolMax := worldEndZ - 1.0,
      patrolDirection := 1,
      state := JState.hopping, globalChase := false,
      lane := { xMin := worldX - 0.5, xMax := worldX + 0.5,
                zMin := worldStartZ + 0.5, zMax := worldEndZ - 0.5,
                axis := Axis.z, fixedCoord := worldX } }

/-! ### Player collision resolver (updatePlayer) -/

/-- Micro-displacement list of the stuck-resolution fallback: ±0.005 on
each axis, then the four diagonals, in source order. -/
def microDirections : List (ℚ × ℚ) :=
  [(0.005, 0), (-0.005, 0), (0, 0.005), (0, -0.005),
   (0.005, 0.005), (-0.005, 0.005), (0.005, -0.005), (-0.005, -0.005)]

/-- First accepted micro-displacement applied to pos, or pos when every
candidate is blocked. -/
def firstMicro (m : Grid) (pos : ℚ × ℚ) : ℚ × ℚ :=
  match microDirections.find? (fun d => !(isWallAt m (pos.1 + d.1) (pos.2 + d.2))) with
  | some d => (pos.1 + d.1, pos.2 + d.2)
  | none => pos

/-- Collision resolution of updatePlayer: accept the free candidate;
otherwise slide on x (keeping the old z), then slide on z from the
possibly x-slid position, and if neither slide moved, take the first
free micro-displacement, or stay put. -/
def resolveMove (m : Grid) (pos newPos : ℚ × ℚ) : ℚ × ℚ :=
  if isWallAt m newPos.1 newPos.2 = false then newPos
  else
    let movedX := isWallAt m newPos.1 pos.2 = false
    let p1 := if movedX then (newPos.1, pos.2) else pos
    let movedZ := isWallAt m p1.1 newPos.2 = false
    let p2 := if movedZ then (p1.1, newPos.2) else p1
    if movedX ∨ movedZ then p2 else firstMicro m pos

/-- Resolution chain as the specification words it: full candidate,
x-only slide, z-only slide, first micro-displacement, no-op. Stated
for comparison with resolveMove. -/
def resolveMoveSpec (m : Grid) (pos newPos : ℚ × ℚ) : ℚ × ℚ :=
  if isWallAt m newPos.1 newPos.2 = false then newPos
  else if isWallAt m newPos.1 pos.2 = false then (newPos.1, pos.2)
  else if isWallAt m pos.1 newPos.2 = false then (pos.1, newPos.2)
  else firstMicro m pos

/-- Coordinate of an agent along its own patrol axis. -/
def patrolCoord (j : Jumper) : ℚ :=
  match j.patrolAxis with
  | Axis.x => j.x
  | Axis.z => j.z

/-- Spacing relation of the allocator invariant: same-orientation
corridors keep fixed-coordinate distance at least d. -/
def spacedP (d : ℚ) (a b : Corridor) : Prop :=
  a.ctype = b.ctype → d ≤ |fixedOf a - fixedOf b|

/-- Growth relation between grids: every open cell of the first is
still open in the second (cells are never closed). -/
def openPreserved (m1 m2 : Grid) : Prop :=
  ∀ x y, gridGet m1 x y = 0 → gridGet m2 x y = 0

/-- Span invariant the corridor extractor establishes on the fields of
whichever orientation the corridor has: the run's end coordinate is
its start coordinate plus length minus one. -/
def spanConsistent (c : Corridor) : Prop :=
  match c.ctype with
  | Orientation.horizontal => c.endX = c.startX + c.length - 1
  | Orientation.vertical => c.endZ = c.startZ + c.length - 1

/-! ### Concrete fixtures used by witnesses and counterexamples -/

/-- Random stream exhibiting a disconnecting run of the generator: the
carve phase consumes exactly 195 values (one per newly visited lattice
cell); the first noise attempt is then aimed at cell (8,12) with both
extension coins failing, and the remaining 14 attempts all target the
already-open lattice cell (3,3). -/
def cexStream (n : Nat) : ℚ :=
  if n < 195 then (((13 * n + 5) % 17 : Nat) : ℚ) / 17
  else if n = 195 then 3 / 13
  else if n = 196 then 5 / 13
  else if n ≤ 198 then 0
  else 1 / 26

/-- Fully open 30×30 grid (no walls), a trivial collision environment. -/
def mOpen : Grid :=
  List.replicate MAZE_SIZE (List.replicate MAZE_SIZE 0)

/-- Example lane along the x axis on row z = 0 spanning x ∈ [-5, 5]. -/
def laneWide : Lane :=
  { xMin := -5, xMax := 5, zMin := -0.5, zMax := 0.5, axis := Axis.x, fixedCoord := 0 }

/-- Example agent at the origin of laneWide, patrolling x ∈ [-3, 3]. -/
def jWide : Jumper :=
  { x := 0, y := 0, z := 0, dirX := 1, dirZ := 0,
    patrolAxis := Axis.x, patrolMin := -3, patrolMax := 3, patrolDirection := 1,
    state := JState.hopping, globalChase := false, lane := laneWide }

/-- jWide in the chasing state. -/
def jChasing : Jumper :=
  { jWide with state := JState.chasing }

/-- jChasing with the Survival globalChase flag set. -/
def jGlobal : Jumper :=
  { jChasing with globalChase := true }

/-- Example corridor pair: two horizontal corridors of length 6 on rows
1 and 3 (far enough for pass 2, too close for pass 1). -/
def corrPair : List Corridor :=
  [{ ctype := Orientation.horizontal, x := 0, z := 1,
     startX := 2, endX := 7, startZ := 0, endZ := 0, length := 6 },
   { ctype := Orientation.horizontal, x := 0, z := 3,
     startX := 2, endX := 7, startZ := 0, endZ := 0, length := 6 }]

/-- Example short corridor of length 2 (selectable only by pass 2). -/
def corrShort : Corridor :=
  { ctype := Orientation.horizontal, x := 0, z := 5,
    startX := 10, endX := 11, startZ := 0, endZ := 0, length := 2 }

/-- Example vertical short corridor of length 2. -/
def corrShortV : Corridor :=
  { ctype := Orientation.vertical, x := 7, z := 0,
    startX := 0, endX := 0, startZ := 20, endZ := 21, length := 2 }

/-! ## Theorems -/

/-- The embedded floor agrees with the mathematical floor function. -/
theorem jsFloor_eq_floor (q : ℚ) : jsFloor q = ⌊q⌋ := by
  rw [jsFloor, Rat.floor_def, Rat.floor_def']

/-- Claim C8: any world position whose grid coordinate floor(p + N/2)
falls outside [0,N) on either axis is reported as WALL by both the
thick-body query isWallAt and the thin-body query isWallAtZombie;
out-of-bounds queries are fail-closed. -/
theorem boundary_fail_closed (m : Grid) (px pz : ℚ)
    (h : jsFloor (px + (MAZE_SIZE : ℚ) / 2) < 0 ∨
         jsFloor (px + (MAZE_SIZE : ℚ) / 2) ≥ (MAZE_SIZE : ℤ) ∨
         jsFloor (pz + (MAZE_SIZE : ℚ) / 2) < 0 ∨
         jsFloor (pz + (MAZE_SIZE : ℚ) / 2) ≥ (MAZE_SIZE : ℤ)) :
    isWallAt m px pz = true ∧ isWallAtZombie m px pz = true := by
  constructor
  · simp only [isWallAt]
    rw [if_pos h]
  · simp only [isWallAtZombie]
    rw [if_pos h]

attribute [local semireducible] Rat.mul Rat.inv Rat.add Rat.sub Rat.ofScientific in
/-- Witness for C8 at the out-of-range position (20, 0). -/
theorem boundary_fail_closed_witness :
    isWallAt mazeInit 20 0 = true ∧ isWallAtZombie mazeInit 20 0 = true :=
  boundary_fail_closed mazeInit 20 0 (Or.inr (Or.inl (by decide)))

/-- Claim C3: after the Hunt-mode state update an agent is chasing if
and only if the player satisfies the lane-tolerance predicate (1.2 on
the confined axis, 1.0 widening on the free axis), and a chasing agent
reverts to hopping on the frame the predicate turns false. -/
theorem hunt_aggro_iff (j : Jumper) (px pz : ℚ) :
    ((huntStateUpdate j px pz).state = JState.chasing ↔ playerInLaneHunt j px pz = true) ∧
    (j.state = JState.chasing → playerInLaneHunt j px pz = false →
      (huntStateUpdate j px pz).state = JState.hopping) := by
  unfold huntStateUpdate
  cases hp : playerInLaneHunt j px pz <;> cases hs : j.state <;> simp [hp, hs]

attribute [local semireducible] Rat.mul Rat.inv Rat.add Rat.sub Rat.ofScientific in
/-- Witness for C3: a chasing agent with the player far outside its
lane reverts to hopping. -/
theorem hunt_aggro_iff_witness :
    (huntStateUpdate jChasing 10 10).state = JState.hopping :=
  (hunt_aggro_iff jChasing 10 10).2 rfl (by decide)

/-- Every Hunt-build movement step ends by clamping the patrol-axis
coordinate: the resulting coordinate is max patrolMin (min patrolMax v)
for some v, in every state. -/
theorem huntMoveStep_clamps (j : Jumper) (px pz : ℚ) :
    ∃ v, patrolCoord (huntMoveStep j px pz) =
      max j.patrolMin (min j.patrolMax v) := by
  cases j with
  | mk jx jy jz dx dz pax pmin pmax pd s gc ln =>
    cases pax <;> simp only [huntMoveStep, patrolCoord] <;> exact ⟨_, rfl⟩

/-- Claim C1 (refuting evaluation): the Hunt-build movement step
applies the lane-bound clamp in the chasing state as well — for any
agent with patrolMin ≤ patrolMax, the patrol-axis coordinate after the
step always lies inside [patrolMin, patrolMax], so a chasing agent can
never cross its patrol bounds, contrary to the claimed unclamped chase
step. -/
theorem hunt_chase_never_crosses_bounds (j : Jumper) (px pz : ℚ)
    (hb : j.patrolMin ≤ j.patrolMax) :
    j.patrolMin ≤ patrolCoord (huntMoveStep j px pz) ∧
    patrolCoord (huntMoveStep j px pz) ≤ j.patrolMax := by
  obtain ⟨v, hv⟩ := huntMoveStep_clamps j px pz
  rw [hv]
  exact ⟨le_max_left _ _, max_le hb (min_le_left _ _)⟩

attribute [local semireducible] Rat.mul Rat.inv Rat.add Rat.sub Rat.ofScientific in
/-- Witness for C1: a concrete chasing agent with the player far past
its patrol bound stays inside [-3, 3] after the step. -/
theorem hunt_chase_never_crosses_bounds_witness :
    jChasing.patrolMin ≤ patrolCoord (huntMoveStep jChasing 10 0) ∧
    patrolCoord (huntMoveStep jChasing 10 0) ≤ jChasing.patrolMax :=
  hunt_chase_never_crosses_bounds jChasing 10 0 (by decide)

/-- Claim C10: a corridor of length ≤ 3 accepted by pass 2 — of either
orientation — produces patrol bounds with patrolMax ≤ patrolMin
(equality shifted by one for length 2), and because the per-frame
clamp is unconditional, every Hunt-build movement step leaves such an
agent exactly at patrolMin, in every state. -/
theorem short_corridor_pinned (c : Corridor) (hE : spanConsistent c)
    (hlen : c.length ≤ 3) (s : JState) (px pz : ℚ) :
    (mkJumper c).patrolMax ≤ (mkJumper c).patrolMin ∧
    (c.length = 2 → (mkJumper c).patrolMin = (mkJumper c).patrolMax + 1) ∧
    patrolCoord (huntMoveStep { mkJumper c with state := s } px pz) =
      (mkJumper c).patrolMin := by
  have hone : (1.0 : ℚ) = 1 := by norm_num
  have hbounds : (mkJumper c).patrolMax = (mkJumper c).patrolMin + c.length - 3 := by
    cases hc : c.ctype with
    | horizontal =>
      simp only [spanConsistent, hc] at hE
      have hmin : (mkJumper c).patrolMin = c.startX - (MAZE_SIZE : ℚ) / 2 + 1.0 := by
        simp [mkJumper, hc]
      have hmax : (mkJumper c).patrolMax = c.endX - (MAZE_SIZE : ℚ) / 2 - 1.0 := by
        simp [mkJumper, hc]
      rw [hmin, hmax, hE, hone]
      ring
    | vertical =>
      simp only [spanConsistent, hc] at hE
      have hmin : (mkJumper c).patrolMin = c.startZ - (MAZE_SIZE : ℚ) / 2 + 1.0 := by
        simp [mkJumper, hc]
      have hmax : (mkJumper c).patrolMax = c.endZ - (MAZE_SIZE : ℚ) / 2 - 1.0 := by
        simp [mkJumper, hc]
      rw [hmin, hmax, hE, hone]
      ring
  have hle : (mkJumper c).patrolMax ≤ (mkJumper c).patrolMin := by
    rw [hbounds]
    linarith
  refine ⟨hle, ?_, ?_⟩
  · intro h2
    rw [hbounds, h2]
    ring
  · obtain ⟨v, hv⟩ := huntMoveStep_clamps { mkJumper c with state := s } px pz
    rw [hv]
    have e1 : ({ mkJumper c with state := s } : Jumper).patrolMin = (mkJumper c).patrolMin := rfl
    have e2 : ({ mkJumper c with state := s } : Jumper).patrolMax = (mkJumper c).patrolMax := rfl
    rw [e1, e2]
    exact max_eq_left (le_trans (min_le_left _ _) hle)

/-- Movement phase of the mode-select build never writes the state or
the globalChase flag. -/
theorem svMoveStep_preserves_state (mode : GameMode) (m : Grid) (j : Jumper) (px pz : ℚ) :
    (svMoveStep mode m j px pz).state = j.state ∧
    (svMoveStep mode m j px pz).globalChase = j.globalChase :=
  ⟨rfl, rfl⟩

/-- The Survival state update leaves a chasing agent unchanged. -/
theorem svStateUpdate_survival_chasing (j : Jumper) (px pz : ℚ)
    (hs : j.state = JState.chasing) :
    svStateUpdate GameMode.survival j px pz = j := by
  simp [svStateUpdate, hs]

/-- Claim C4: in Survival mode, an agent whose globalChase flag is set
and which is chasing keeps the flag and the chasing state through any
sequence of subsequent frame updates, whatever the player positions:
the hopping-to-chasing transition is one-way. -/
theorem survival_chase_sticky (m : Grid) (j : Jumper) (path : List (ℚ × ℚ))
    (hg : j.globalChase = true) (hs : j.state = JState.chasing) :
    (svRun GameMode.survival m j path).globalChase = true ∧
    (svRun GameMode.survival m j path).state = JState.chasing := by
  induction path generalizing j with
  | nil => exact ⟨hg, hs⟩
  | cons p rest ih =>
    have hupd : svStateUpdate GameMode.survival j p.1 p.2 = j :=
      svStateUpdate_survival_chasing j p.1 p.2 hs
    have hmove := svMoveStep_preserves_state GameMode.survival m j p.1 p.2
    have hstep : (svFrameStep GameMode.survival m j p.1 p.2).globalChase = true ∧
        (svFrameStep GameMode.survival m j p.1 p.2).state = JState.chasing := by
      rw [svFrameStep, hupd]
      exact ⟨hmove.2.trans hg, hmove.1.trans hs⟩
    exact ih _ hstep.1 hstep.2

attribute [local semireducible] Rat.mul Rat.inv Rat.add Rat.sub Rat.ofScientific in
/-- Witness for C4: a concrete sticky chaser stays chasing with the
flag set over a two-frame run with the player far out of lane. -/
theorem survival_chase_sticky_witness :
    (svRun GameMode.survival mOpen jGlobal [(10, 10), (0, 0)]).globalChase = true ∧
    (svRun GameMode.survival mOpen jGlobal [(10, 10), (0, 0)]).state = JState.chasing :=
  survival_chase_sticky mOpen jGlobal [(10, 10), (0, 0)] rfl rfl

attribute [local semireducible] Rat.mul Rat.inv Rat.add Rat.sub Rat.ofScientific in
/-- Claim C6 counterexample: a Survival chaser on patrol axis x with
displacement 1 on x and 5 on z moves along x and keeps patrolAxis = x,
although z is the axis of larger displacement, refuting the claimed
always-larger-displacement pursuit. -/
theorem survival_pursuit_not_larger_axis :
    |(5 : ℚ) - jGlobal.z| > |(1 : ℚ) - jGlobal.x| ∧
    (svMoveStep GameMode.survival mOpen jGlobal 1 5).patrolAxis = Axis.x ∧
    (svMoveStep GameMode.survival mOpen jGlobal 1 5).x = jGlobal.x + JUMPER_SPEED * 0.5 ∧
    (svMoveStep GameMode.survival mOpen jGlobal 1 5).z = jGlobal.z := by
  decide

/-- The source pursuit target equals the specification chain. -/
theorem svPursuitTarget_eq_spec (j : Jumper) (px pz : ℚ) :
    svPursuitTarget j px pz = specPursuitTarget j px pz := by
  cases hax : j.patrolAxis <;>
    simp [svPursuitTarget, specPursuitTarget, hax]

/-- The specification pursuit target is always an axis unit vector, so
it passes the 0.1 length guard. -/
theorem lenGt_specTarget (j : Jumper) (px pz : ℚ) :
    lenGt (specPursuitTarget j px pz).1.1 (specPursuitTarget j px pz).1.2 0.1 = true := by
  simp only [specPursuitTarget]
  split_ifs <;> norm_num [lenGt]

/-- Claim C6 as amended: the Survival movement step of a chasing agent
with globalChase set coincides with the corridor-pursuit chain
svChaseSpecStep: current patrol axis first while its displacement
exceeds 0.5, larger-displacement axis with re-label at an intersection,
candidate cell validated fail-closed with the move cancelled on a
wall. -/
theorem survival_pursuit_spec (m : Grid) (j : Jumper) (px pz : ℚ)
    (hs : j.state = JState.chasing) (hg : j.globalChase = true) :
    svMoveStep GameMode.survival m j px pz = svChaseSpecStep m j px pz := by
  have ht := svPursuitTarget_eq_spec j px pz
  have hl := lenGt_specTarget j px pz
  cases hax : j.patrolAxis <;>
    simp only [svMoveStep, svChaseSpecStep, hs, hg, hax, ht, hl] <;>
    simp [hl]

attribute [local semireducible] Rat.mul Rat.inv Rat.add Rat.sub Rat.ofScientific in
/-- Witness for the amended C6 at a concrete pursuit configuration. -/
theorem survival_pursuit_spec_witness :
    svMoveStep GameMode.survival mOpen jGlobal 1 5 = svChaseSpecStep mOpen jGlobal 1 5 :=
  survival_pursuit_spec mOpen jGlobal 1 5 rfl rfl

attribute [local semireducible] Rat.mul Rat.inv Rat.add Rat.sub Rat.ofScientific in
/-- Witness for C10 on concrete length-2 corridors of both
orientations: a Hunt step pins the horizontal agent at patrolMin in
the hopping state and the vertical agent in the chasing state. -/
theorem short_corridor_pinned_witness :
    patrolCoord (huntMoveStep { mkJumper corrShort with state := JState.hopping } 0 0) =
      (mkJumper corrShort).patrolMin ∧
    patrolCoord (huntMoveStep { mkJumper corrShortV with state := JState.chasing } 0 0) =
      (mkJumper corrShortV).patrolMin :=
  ⟨(short_corridor_pinned corrShort (by norm_num [spanConsistent, corrShort])
      (by decide) JState.hopping 0 0).2.2,
   (short_corridor_pinned corrShortV (by norm_num [spanConsistent, corrShortV])
      (by decide) JState.chasing 0 0).2.2⟩

attribute [local semireducible] Rat.mul Rat.inv Rat.add Rat.sub Rat.ofScientific in
/-- Claim C5: combat legality is the shared lane predicate plus a
weapon radius: every bullet hit is also knife-legal (the lane predicate
is the same and 0.7 < 2.8); a knife swing in-lane at distance 2.79
hits, at 2.81 it does not, and out-of-lane at distance 1.0 it does
not; and for a patrol-axis-x agent the knife predicate is exactly the
claimed conjunction of lane tolerance 0.8, free-span widening 0.5 and
the squared-distance bound. -/
theorem combat_lane_legality :
    (∀ (j : Jumper) (qx qy qz : ℚ),
      bulletHitCheck j qx qy qz = true → knifeHitCheck j qx qy qz = true) ∧
    knifeHitCheck jWide 2.79 0 0 = true ∧
    knifeHitCheck jWide 2.81 0 0 = false ∧
    knifeHitCheck jWide 0 0 1 = false ∧
    (∀ (j : Jumper) (qx qy qz : ℚ), j.patrolAxis = Axis.x →
      (knifeHitCheck j qx qy qz = true ↔
        (|qz - j.lane.fixedCoord| < 0.8 ∧ j.lane.xMin - 0.5 ≤ qx ∧ qx ≤ j.lane.xMax + 0.5 ∧
         distSq qx qy qz j.x j.y j.z < KNIFE_RANGE * KNIFE_RANGE))) := by
  refine ⟨?_, ?_, ?_, ?_, ?_⟩
  · intro j qx qy qz h
    simp only [bulletHitCheck, knifeHitCheck, distLt, Bool.and_eq_true,
      decide_eq_true_eq] at h ⊢
    refine ⟨h.1, lt_trans h.2 ?_⟩
    norm_num [KNIFE_RANGE]
  · decide
  · decide
  · decide
  · intro j qx qy qz hax
    simp only [knifeHitCheck, inSameLaneCombat, distLt, hax, Bool.and_eq_true,
      decide_eq_true_eq, ge_iff_le]
    tauto

attribute [local semireducible] Rat.mul Rat.inv Rat.add Rat.sub Rat.ofScientific in
/-- Witness for C5: a concrete in-lane bullet hit is knife-legal. -/
theorem combat_lane_legality_witness :
    knifeHitCheck jWide 0.5 0 0 = true :=
  combat_lane_legality.1 jWide 0.5 0 0 (by decide)

/-- A false spacing test means every already selected corridor of the
same orientation is at fixed-coordinate distance at least d. -/
theorem tooClose_false_spacing {c : Corridor} {sel : List Corridor} {d : ℚ}
    (h : tooClose c sel d = false) :
    ∀ s ∈ sel, c.ctype = s.ctype → d ≤ |fixedOf c - fixedOf s| := by
  intro s hs hty
  by_contra hlt
  push_neg at hlt
  have htrue : tooClose c sel d = true := by
    simp only [tooClose, List.any_eq_true, decide_eq_true_eq]
    exact ⟨s, hs, hty, hlt⟩
  rw [htrue] at h
  cases h

/-- Appending a corridor that passed the spacing test keeps the
pairwise spacing invariant at the same distance. -/
theorem pairwise_append_selected {sel : List Corridor} {c : Corridor} {d : ℚ}
    (h : sel.Pairwise (spacedP d)) (hc : tooClose c sel d = false) :
    (sel ++ [c]).Pairwise (spacedP d) := by
  rw [List.pairwise_append]
  refine ⟨h, List.pairwise_singleton _ _, ?_⟩
  intro a ha b hb
  rw [List.mem_singleton] at hb
  subst hb
  intro hty
  have := tooClose_false_spacing hc a ha hty.symm
  rwa [abs_sub_comm] at this

/-- The first selection pass preserves pairwise spacing at
minDistanceBetweenJumpers. -/
theorem pass1_fold_pairwise (cs : List Corridor) (sel : List Corridor)
    (h : sel.Pairwise (spacedP minDistanceBetweenJumpers)) :
    (cs.foldl pass1Step sel).Pairwise (spacedP minDistanceBetweenJumpers) := by
  induction cs generalizing sel with
  | nil => exact h
  | cons c rest ih =>
    apply ih
    unfold pass1Step
    split_ifs with h1 h2
    · exact h
    · exact pairwise_append_selected h h2.2
    · exact h

/-- The second selection pass preserves pairwise spacing at 2.0. -/
theorem pass2_fold_pairwise (cs : List Corridor) (sel : List Corridor)
    (h : sel.Pairwise (spacedP 2.0)) :
    (cs.foldl pass2Step sel).Pairwise (spacedP 2.0) := by
  induction cs generalizing sel with
  | nil => exact h
  | cons c rest ih =>
    apply ih
    unfold pass2Step
    split_ifs with h1 h2 h3
    · exact h
    · exact h
    · exact pairwise_append_selected h h3
    · exact h

/-- Claim C7: every pair of distinct same-orientation corridors of the
pass-1 selection is at fixed-coordinate distance ≥ 4, and every pair of
distinct same-orientation corridors of the final selection is at
fixed-coordinate distance ≥ 2. -/
theorem spawn_spacing (cs : List Corridor) :
    (selectPass1 cs).Pairwise (fun a b => a.ctype = b.ctype → 4 ≤ |fixedOf a - fixedOf b|) ∧
    (selectCorridors cs).Pairwise (fun a b => a.ctype = b.ctype → 2 ≤ |fixedOf a - fixedOf b|) := by
  have h4 : (selectPass1 cs).Pairwise (spacedP minDistanceBetweenJumpers) :=
    pass1_fold_pairwise cs [] List.Pairwise.nil
  have hd4 : minDistanceBetweenJumpers = 4 := by norm_num [minDistanceBetweenJumpers]
  constructor
  · exact h4.imp fun hab hty => hd4 ▸ hab hty
  · unfold selectCorridors
    split_ifs with hne
    · have h2 : (cs.foldl pass2Step (selectPass1 cs)).Pairwise (spacedP 2.0) := by
        apply pass2_fold_pairwise
        exact h4.imp fun hab hty => le_trans (by norm_num [minDistanceBetweenJumpers]) (hab hty)
      have hd2 : (2.0 : ℚ) = 2 := by norm_num
      exact h2.imp fun hab hty => hd2 ▸ hab hty
    · exact List.Pairwise.nil

attribute [local semireducible] Rat.mul Rat.inv Rat.add Rat.sub Rat.ofScientific in
/-- Witness for C7 on the concrete two-corridor list: the first pass
keeps only one of the two rows 1 and 3, the final selection holds both
at distance 2. -/
theorem spawn_spacing_witness :
    (selectPass1 corrPair).Pairwise
      (fun a b => a.ctype = b.ctype → 4 ≤ |fixedOf a - fixedOf b|) ∧
    (selectCorridors corrPair).Pairwise
      (fun a b => a.ctype = b.ctype → 2 ≤ |fixedOf a - fixedOf b|) :=
  spawn_spacing corrPair

/-- Claim C9: the player collision resolver equals the specification
chain (full candidate, x-only slide, z-only slide, first free
micro-displacement) and, when the candidate, both slides and all eight
micro-displacements are blocked, it leaves the position unchanged. -/
theorem resolver_order (m : Grid) (pos newPos : ℚ × ℚ) :
    resolveMove m pos newPos = resolveMoveSpec m pos newPos ∧
    (isWallAt m newPos.1 newPos.2 = true → isWallAt m newPos.1 pos.2 = true →
     isWallAt m pos.1 newPos.2 = true →
     (∀ d ∈ microDirections, isWallAt m (pos.1 + d.1) (pos.2 + d.2) = true) →
     resolveMove m pos newPos = pos) := by
  constructor
  · unfold resolveMove resolveMoveSpec
    split_ifs <;> simp_all
  · intro h1 h2 h3 h4
    have hm : firstMicro m pos = pos := by
      unfold firstMicro
      have : microDirections.find?
          (fun d => !(isWallAt m (pos.1 + d.1) (pos.2 + d.2))) = none := by
        rw [List.find?_eq_none]
        intro d hd
        simp [h4 d hd]
      rw [this]
    unfold resolveMove
    split_ifs <;> simp_all

attribute [local semireducible] Rat.mul Rat.inv Rat.add Rat.sub Rat.ofScientific in
/-- Witness for C9 in the all-wall grid: every fallback is blocked and
the resolver is a no-op. -/
theorem resolver_order_witness :
    resolveMove mazeInit (0, 0) (0.05, 0) = (0, 0) :=
  (resolver_order mazeInit (0, 0) (0.05, 0)).2 (by decide) (by decide) (by decide)
    (by decide)

/-- Setting a list entry to 0 keeps every entry that was 0. -/
theorem listSet_getD_zero {l : List Nat} (y : Nat) {b : Nat} (h : l.getD b 1 = 0) :
    (l.set y 0).getD b 1 = 0 := by
  by_cases hyb : y = b
  · subst hyb
    by_cases hy : y < l.length
    · rw [List.getD_eq_getElem?_getD, List.getElem?_set_eq_of_lt _ hy]
      rfl
    · rw [List.set_eq_of_length_le (le_of_not_lt hy)]
      exact h
  · rwa [List.getD_eq_getElem?_getD, List.getElem?_set_ne hyb, ← List.getD_eq_getElem?_getD]

/-- Row extraction after an in-range row write. -/
theorem getD_set_self {l : List (List Nat)} {x : Nat} (hx : x < l.length) (r : List Nat) :
    (l.set x r).getD x [] = r := by
  rw [List.getD_eq_getElem?_getD, List.getElem?_set_eq_of_lt _ hx]
  rfl

/-- Row extraction at an index other than the written one. -/
theorem getD_set_other {l : List (List Nat)} {x a : Nat} (hxa : x ≠ a) (r : List Nat) :
    (l.set x r).getD a [] = l.getD a [] := by
  rw [List.getD_eq_getElem?_getD, List.getElem?_set_ne hxa, ← List.getD_eq_getElem?_getD]

/-- Opening a grid cell keeps every cell that was open. -/
theorem gridGet_gridSet_zero {m : Grid} (x y : Nat) {a b : Nat} (h : gridGet m a b = 0) :
    gridGet (gridSet m x y 0) a b = 0 := by
  unfold gridGet at h
  unfold gridGet gridSet
  by_cases hxa : x = a
  · subst hxa
    by_cases hx : x < (m : List (List Nat)).length
    · rw [getD_set_self hx]
      exact listSet_getD_zero y h
    · rw [List.set_eq_of_length_le (le_of_not_lt hx)]
      exact h
  · rw [getD_set_other hxa]
    exact h

/-- Reflexivity of the growth relation. -/
theorem openPreserved_refl (m : Grid) : openPreserved m m :=
  fun _ _ h => h

/-- Transitivity of the growth relation. -/
theorem openPreserved_trans {m1 m2 m3 : Grid}
    (h12 : openPreserved m1 m2) (h23 : openPreserved m2 m3) : openPreserved m1 m3 :=
  fun a b h => h23 a b (h12 a b h)

/-- A single open-write grows the grid. -/
theorem openPreserved_set (m : Grid) (x y : Nat) : openPreserved m (gridSet m x y 0) :=
  fun _ _ h => gridGet_gridSet_zero x y h

/-- A conditional open-write grows the grid. -/
theorem openPreserved_ite_set (m : Grid) (c : Prop) [Decidable c] (x y : Nat) :
    openPreserved m (if c then gridSet m x y 0 else m) := by
  split_ifs
  · exact openPreserved_set m x y
  · exact openPreserved_refl m

/-- A fold whose every step grows the grid grows the grid. -/
theorem foldl_openPreserved {α : Type} (f : Grid → α → Grid)
    (hf : ∀ m a, openPreserved m (f m a)) (l : List α) (m : Grid) :
    openPreserved m (l.foldl f m) := by
  induction l generalizing m with
  | nil => exact openPreserved_refl m
  | cons a rest ih => exact openPreserved_trans (hf m a) (ih (f m a))

/-- One noise attempt only ever opens cells. -/
theorem noiseAttempt_preserves (stream : Nat → ℚ) (st : Grid × Nat) :
    openPreserved st.1 (noiseAttempt stream st).1 := by
  simp only [noiseAttempt]
  split_ifs <;>
    first
      | exact openPreserved_refl _
      | exact openPreserved_set _ _ _
      | exact openPreserved_trans (openPreserved_set _ _ _) (openPreserved_set _ _ _)
      | exact openPreserved_trans
          (openPreserved_trans (openPreserved_set _ _ _) (openPreserved_set _ _ _))
          (openPreserved_set _ _ _)

/-- The whole noise pass only ever opens cells. -/
theorem noisePass_preserves (stream : Nat → ℚ) (m : Grid) (k : Nat) :
    openPreserved m (noisePass stream m k).1 := by
  unfold noisePass
  generalize List.range 15 = l
  induction l generalizing m k with
  | nil => exact openPreserved_refl m
  | cons i rest ih =>
    simp only [List.foldl_cons]
    have hstep := noiseAttempt_preserves stream (m, k)
    have hrest := ih (noiseAttempt stream (m, k)).1 (noiseAttempt stream (m, k)).2
    exact openPreserved_trans hstep hrest

/-- The exit-corner clear only ever opens cells. -/
theorem clearExit_preserves (m : Grid) : openPreserved m (clearExit m) := by
  unfold clearExit
  exact openPreserved_trans
    (openPreserved_trans
      (openPreserved_trans (openPreserved_set _ _ _) (openPreserved_set _ _ _))
      (openPreserved_set _ _ _))
    (openPreserved_set _ _ _)

/-- The pickup-area clear only ever opens cells. -/
theorem clearPickup_preserves (m : Grid) : openPreserved m (clearPickup m) := by
  unfold clearPickup
  apply foldl_openPreserved
  intro m1 dx
  apply foldl_openPreserved
  intro m2 dz
  apply openPreserved_ite_set

/-- Supporting half of Claim C2 that does hold: the three post-carve
passes only ever change cells WALL to OPEN; every cell open after the
carve is still open in the final maze. -/
theorem generateMaze_never_closes (stream : Nat → ℚ) :
    openPreserved (carveMaze stream).maze (generateMaze stream) := by
  unfold generateMaze
  exact openPreserved_trans (noisePass_preserves stream (carveMaze stream).maze
      (carveMaze stream).rIdx)
    (openPreserved_trans (clearExit_preserves _) (clearPickup_preserves _))

set_option maxRecDepth 1000000 in
attribute [local semireducible] Rat.mul Rat.inv Rat.add Rat.sub Rat.ofScientific in
/-- Claim C2 (refuting evaluation): the generator run driven by
cexStream — whose 15-attempt noise pass punches the isolated cell
(8,12), all four of whose neighbors stay walls — produces a maze in
which the flood fill from the entrance (1,1) does not reach every open
cell. -/
theorem maze_disconnected_run : mazeConnected (generateMaze cexStream) = false := by
  decide

end Zyrath
